import Mathlib

/-!
Shallow embedding of the claude-session-monitor backend core:
the SQLite-backed store (`src/backend/src/db.rs`) and the hook-event
handlers (`src/backend/src/api.rs`).

Rows are records, tables are lists of rows, timestamps are naturals
(a monotone clock standing for the RFC3339 strings the code stores,
which compare chronologically), and fresh UUIDs are naturals supplied
by the caller.  Statuses are the literal strings the code writes.
Fallible SQL statements are modelled by fault-injection flags: a
statement whose flag is set performs no change, mirroring a failed
SQLite statement.
-/

namespace SessionMonitor

/-- A row of the `sessions` table. -/
structure SessionRow where
  id : Nat
  session_id : String
  project_path : String
  project_name : String
  status : String
  created_at : Nat
  updated_at : Nat
deriving DecidableEq

/-- A row of the `agents` table. -/
structure AgentRow where
  id : Nat
  session_id : String
  agent_name : String
  parent_session_id : Option String
  status : String
  created_at : Nat
  updated_at : Nat
deriving DecidableEq

/-- A row of the `events` table. -/
structure EventRow where
  id : Nat
  session_id : String
  agent_name : Option String
  event_type : String
  payload : String
  timestamp : Nat
deriving DecidableEq

/-- The whole database. -/
structure Db where
  sessions : List SessionRow
  agents : List AgentRow
  events : List EventRow
deriving DecidableEq

def Db.empty : Db := ⟨[], [], []⟩

/-- `db.rs` `upsert_session`: `INSERT ... ON CONFLICT(session_id) DO UPDATE SET
project_path, project_name, status, updated_at` (id and created_at kept). -/
def upsert_session (db : Db) (session_id project_path project_name status : String)
    (now fresh : Nat) : Db :=
  if db.sessions.any (fun s => s.session_id = session_id) then
    { db with sessions := db.sessions.map (fun s =>
        if s.session_id = session_id then
          { s with project_path := project_path, project_name := project_name,
                   status := status, updated_at := now }
        else s) }
  else
    { db with sessions := db.sessions ++
        [{ id := fresh, session_id := session_id, project_path := project_path,
           project_name := project_name, status := status,
           created_at := now, updated_at := now }] }

/-- `db.rs` `upsert_agent`: `INSERT ... ON CONFLICT(session_id, agent_name) DO UPDATE
SET parent_session_id, status, updated_at`. -/
def upsert_agent (db : Db) (session_id agent_name : String)
    (parent_session_id : Option String) (status : String) (now fresh : Nat) : Db :=
  if db.agents.any (fun a => a.session_id = session_id ∧ a.agent_name = agent_name) then
    { db with agents := db.agents.map (fun a =>
        if a.session_id = session_id ∧ a.agent_name = agent_name then
          { a with parent_session_id := parent_session_id,
                   status := status, updated_at := now }
        else a) }
  else
    { db with agents := db.agents ++
        [{ id := fresh, session_id := session_id, agent_name := agent_name,
           parent_session_id := parent_session_id, status := status,
           created_at := now, updated_at := now }] }

/-- `db.rs` `insert_event`: pure append to the `events` table. -/
def insert_event (db : Db) (session_id : String) (agent_name : Option String)
    (event_type payload : String) (now fresh : Nat) : Db :=
  { db with events := db.events ++
      [{ id := fresh, session_id := session_id, agent_name := agent_name,
         event_type := event_type, payload := payload, timestamp := now }] }

/-- `db.rs` `mark_session_completed`: unconditional `UPDATE sessions SET
status = completed WHERE session_id = ?`, then the same on `agents`. -/
def mark_session_completed (db : Db) (session_id : String) (now : Nat) : Db :=
  { db with
    sessions := db.sessions.map (fun s =>
      if s.session_id = session_id then
        { s with status := "completed", updated_at := now }
      else s),
    agents := db.agents.map (fun a =>
      if a.session_id = session_id then
        { a with status := "completed", updated_at := now }
      else a) }

/-- `db.rs` `mark_active_session_idle`: `UPDATE sessions SET status = idle
WHERE session_id = ? AND status = active`, then the same on `agents`. -/
def mark_active_session_idle (db : Db) (session_id : String) (now : Nat) : Db :=
  { db with
    sessions := db.sessions.map (fun s =>
      if s.session_id = session_id ∧ s.status = "active" then
        { s with status := "idle", updated_at := now }
      else s),
    agents := db.agents.map (fun a =>
      if a.session_id = session_id ∧ a.status = "active" then
        { a with status := "idle", updated_at := now }
      else a) }

/-- The subquery shared by the three `cleanup_old_completed` deletes:
`session_id IN (SELECT session_id FROM sessions WHERE status = 'completed'
AND datetime(updated_at) <= datetime('now', '-60 seconds'))`. -/
def expiredCompleted (sessions : List SessionRow) (now : Nat) (sid : String) : Prop :=
  ∃ s ∈ sessions, s.session_id = sid ∧ s.status = "completed" ∧ s.updated_at + 60 ≤ now

instance (sessions : List SessionRow) (now : Nat) (sid : String) :
    Decidable (expiredCompleted sessions now sid) :=
  inferInstanceAs (Decidable (∃ s ∈ sessions, _ ∧ _ ∧ _))

/-- First statement of `cleanup_old_completed`: delete the expired
completed sessions' agent rows. -/
def delete_expired_agents (db : Db) (now : Nat) : Db :=
  { db with agents :=
      db.agents.filter (fun a => ¬ expiredCompleted db.sessions now a.session_id) }

/-- Second statement of `cleanup_old_completed`: delete the expired
completed sessions' event rows. -/
def delete_expired_events (db : Db) (now : Nat) : Db :=
  { db with events :=
      db.events.filter (fun e => ¬ expiredCompleted db.sessions now e.session_id) }

/-- Third statement of `cleanup_old_completed`: delete the expired
completed session rows themselves. -/
def delete_expired_sessions (db : Db) (now : Nat) : Db :=
  { db with sessions :=
      db.sessions.filter (fun s => ¬ (s.status = "completed" ∧ s.updated_at + 60 ≤ now)) }

/-- `db.rs` `cleanup_old_completed`: the three deletes in source order
(agents, then events, then sessions). -/
def cleanup_old_completed (db : Db) (now : Nat) : Db :=
  delete_expired_sessions (delete_expired_events (delete_expired_agents db now) now) now

/-- `db.rs` `get_agents_for_session`: agents of one session,
`ORDER BY created_at ASC`. -/
def get_agents_for_session (db : Db) (session_id : String) : List AgentRow :=
  (db.agents.filter (fun a => a.session_id = session_id)).mergeSort
    (fun a b => a.created_at ≤ b.created_at)

/-- The `SessionWithAgents` view of `models.rs`. -/
structure SessionWithAgents where
  id : Nat
  session_id : String
  project_name : String
  project_path : String
  status : String
  created_at : Nat
  updated_at : Nat
  agents : List AgentRow
deriving DecidableEq

/-- The loop body of `get_active_sessions`: a session row together with its
ordered agents. -/
def sessionView (db : Db) (s : SessionRow) : SessionWithAgents :=
  { id := s.id, session_id := s.session_id, project_name := s.project_name,
    project_path := s.project_path, status := s.status, created_at := s.created_at,
    updated_at := s.updated_at, agents := get_agents_for_session db s.session_id }

/-- Forgetting a view's agents recovers the underlying session row. -/
def SessionWithAgents.row (v : SessionWithAgents) : SessionRow :=
  { id := v.id, session_id := v.session_id, project_path := v.project_path,
    project_name := v.project_name, status := v.status, created_at := v.created_at,
    updated_at := v.updated_at }

/-- `db.rs` `get_active_sessions`: `SELECT ... FROM sessions WHERE
status != 'completed' ORDER BY created_at DESC`, each row paired with its
agents via `get_agents_for_session`. -/
def get_active_sessions (db : Db) : List SessionWithAgents :=
  ((db.sessions.filter (fun s => s.status ≠ "completed")).mergeSort
    (fun a b => b.created_at ≤ a.created_at)).map (sessionView db)

/-- The incoming hook-event payload of `models.rs`. -/
structure HookEvent where
  event_type : String
  session_id : String
  project_path : Option String := none
  project_name : Option String := none
  agent_name : Option String := none
  parent_session_id : Option String := none
  needs_input : Option Bool := none
  tool_name : Option String := none
  transcript_path : Option String := none
  message : Option String := none
deriving DecidableEq

/-- HTTP status codes `post_event` can answer with. -/
inductive ApiStatus where
  | ok
  | internalServerError
deriving DecidableEq

/-- Outcome of one request: the database afterwards, the HTTP status, and
whether `broadcast_sessions` was invoked. -/
structure PostResult where
  db : Db
  status : ApiStatus
  broadcast : Bool
deriving DecidableEq

/-- Fault injection: a set flag makes the corresponding SQL statement fail,
leaving the database unchanged. -/
structure Faults where
  stopWriteFails : Bool := false
  sessionEndWriteFails : Bool := false
  sessionUpsertFails : Bool := false
  agentUpsertFails : Bool := false
  insertEventFails : Bool := false
deriving DecidableEq

def noFaults : Faults := {}

def jsonOfOptBool : Option Bool → String
  | none => "null"
  | some true => "true"
  | some false => "false"

def jsonOfOptStr : Option String → String
  | none => "null"
  | some s => "\"" ++ s ++ "\""

/-- The event payload `post_event` serializes on the default path:
`json!(\x7b "needs_input": .., "tool_name": .., "transcript_path": ..,
"message": .. \x7d)`. -/
def buildPayload (ev : HookEvent) : String :=
  "\x7b\"needs_input\":" ++ jsonOfOptBool ev.needs_input ++
  ",\"tool_name\":" ++ jsonOfOptStr ev.tool_name ++
  ",\"transcript_path\":" ++ jsonOfOptStr ev.transcript_path ++
  ",\"message\":" ++ jsonOfOptStr ev.message ++ "\x7d"

/-- The `match event.event_type.as_str()` of `post_event` choosing the target
(session status, agent status) pair on the default path. -/
def eventStatuses (ev : HookEvent) : String × String :=
  if ev.event_type = "notification" ∧ ev.needs_input.getD false = true then
    ("waiting_input", "waiting_input")
  else if ev.event_type = "needs_permission" then ("needs_permission", "needs_permission")
  else if ev.event_type = "subagent_stop" then ("active", "completed")
  else ("active", "active")

/-- `api.rs` `post_event` with fault injection.  `now` stands for the wall
clock during the request and `fresh` for the base of the UUIDs drawn. -/
def postEventF (f : Faults) (db : Db) (ev : HookEvent) (now fresh : Nat) : PostResult :=
  let agent_name := ev.agent_name.getD "main"
  if ev.event_type = "stop" then
    let db1 := if f.stopWriteFails then db else mark_active_session_idle db ev.session_id now
    let db2 :=
      if f.insertEventFails then db1
      else insert_event db1 ev.session_id (some agent_name) ev.event_type "\x7b\x7d" now fresh
    { db := db2, status := .ok, broadcast := true }
  else if ev.event_type = "session_end" then
    let db1 := if f.sessionEndWriteFails then db else mark_session_completed db ev.session_id now
    let db2 :=
      if f.insertEventFails then db1
      else insert_event db1 ev.session_id (some agent_name) ev.event_type "\x7b\x7d" now fresh
    { db := db2, status := .ok, broadcast := true }
  else
    let statuses : String × String := eventStatuses ev
    if f.sessionUpsertFails then
      { db := db, status := .internalServerError, broadcast := false }
    else
      let db1 := upsert_session db ev.session_id (ev.project_path.getD "")
        (ev.project_name.getD "unknown") statuses.1 now fresh
      if f.agentUpsertFails then
        { db := db1, status := .internalServerError, broadcast := false }
      else
        let db2 := upsert_agent db1 ev.session_id agent_name ev.parent_session_id
          statuses.2 now (fresh + 1)
        let db3 :=
          if f.insertEventFails then db2
          else insert_event db2 ev.session_id (some agent_name) ev.event_type
            (buildPayload ev) now (fresh + 2)
        { db := db3, status := .ok, broadcast := true }

/-- `post_event` with no storage fault. -/
def postEvent (db : Db) (ev : HookEvent) (now fresh : Nat) : PostResult :=
  postEventF noFaults db ev now fresh

/-- `api.rs` `delete_session` (the `terminate_session` boundary operation):
`mark_session_completed`, then broadcast. -/
def delete_session (db : Db) (session_id : String) (now : Nat) : PostResult :=
  { db := mark_session_completed db session_id now, status := .ok, broadcast := true }

/-- Number of agent rows for one (session identifier, agent name) key. -/
def countAgents (db : Db) (sid name : String) : Nat :=
  (db.agents.filter (fun a => a.session_id = sid ∧ a.agent_name = name)).length

/-! Concrete scenario inputs used by counterexamples and witnesses. -/

/-- A default-path event naming a sub-agent. -/
def evToolWorker : HookEvent :=
  { event_type := "tool_use", session_id := "s1", agent_name := some "worker" }

/-- A notification that requests user input. -/
def evNotifyMain : HookEvent :=
  { event_type := "notification", session_id := "s1", needs_input := some true }

/-- A notification with the needs_input flag absent. -/
def evNotifyNoInput : HookEvent := { event_type := "notification", session_id := "s1" }

/-- A bare stop event. -/
def evStopS1 : HookEvent := { event_type := "stop", session_id := "s1" }

/-- A bare session-end event. -/
def evEndS1 : HookEvent := { event_type := "session_end", session_id := "s1" }

/-- State reached from an empty store by the worker's tool use followed by the
input-requesting notification: session `s1` is `waiting_input`, its agent
`worker` is still `active`. -/
def waitingDb : Db :=
  (postEvent (postEvent Db.empty evToolWorker 1 10).db evNotifyMain 2 20).db

/-- `waitingDb` after a further `stop` event. -/
def waitingDbAfterStop : Db := (postEvent waitingDb evStopS1 3 30).db

/-- State reached from an empty store by a tool use followed by `session_end`:
session `s1` is `completed`. -/
def completedDb : Db :=
  (postEvent (postEvent Db.empty evToolWorker 1 10).db evEndS1 2 20).db

/-- A one-session, one-agent store with both rows `active`. -/
def oneActiveDb : Db :=
  ⟨[⟨0, "s1", "", "unknown", "active", 1, 1⟩],
   [⟨1, "s1", "main", none, "active", 1, 1⟩], []⟩

/-- A two-session store: `s1` `completed` long ago, `s2` `active`, with an
agent and an event row for each. -/
def mixedDb : Db :=
  ⟨[⟨0, "s1", "", "unknown", "completed", 1, 2⟩, ⟨1, "s2", "", "unknown", "active", 5, 5⟩],
   [⟨2, "s1", "main", none, "completed", 1, 2⟩, ⟨3, "s2", "main", none, "active", 5, 5⟩],
   [⟨4, "s1", some "main", "tool_use", "\x7b\x7d", 1⟩, ⟨5, "s2", some "main", "tool_use", "\x7b\x7d", 5⟩]⟩

/-! Helper lemmas: which tables each store operation leaves untouched, and
how `post_event` unfolds on each of its three branches. -/

@[simp] theorem insert_event_sessions (db : Db) (sid : String) (an : Option String)
    (ty p : String) (now fresh : Nat) :
    (insert_event db sid an ty p now fresh).sessions = db.sessions := rfl

@[simp] theorem insert_event_agents (db : Db) (sid : String) (an : Option String)
    (ty p : String) (now fresh : Nat) :
    (insert_event db sid an ty p now fresh).agents = db.agents := rfl

@[simp] theorem mark_session_completed_events (db : Db) (sid : String) (now : Nat) :
    (mark_session_completed db sid now).events = db.events := rfl

@[simp] theorem mark_active_session_idle_events (db : Db) (sid : String) (now : Nat) :
    (mark_active_session_idle db sid now).events = db.events := rfl

@[simp] theorem upsert_session_agents (db : Db) (sid pp pn st : String) (now fresh : Nat) :
    (upsert_session db sid pp pn st now fresh).agents = db.agents := by
  unfold upsert_session; split <;> rfl

@[simp] theorem upsert_session_events (db : Db) (sid pp pn st : String) (now fresh : Nat) :
    (upsert_session db sid pp pn st now fresh).events = db.events := by
  unfold upsert_session; split <;> rfl

@[simp] theorem upsert_agent_sessions (db : Db) (sid an : String) (p : Option String)
    (st : String) (now fresh : Nat) :
    (upsert_agent db sid an p st now fresh).sessions = db.sessions := by
  unfold upsert_agent; split <;> rfl

@[simp] theorem upsert_agent_events (db : Db) (sid an : String) (p : Option String)
    (st : String) (now fresh : Nat) :
    (upsert_agent db sid an p st now fresh).events = db.events := by
  unfold upsert_agent; split <;> rfl

theorem postEvent_stop_def (db : Db) (ev : HookEvent) (now fresh : Nat)
    (h : ev.event_type = "stop") :
    postEvent db ev now fresh =
      { db := insert_event (mark_active_session_idle db ev.session_id now) ev.session_id
          (some (ev.agent_name.getD "main")) ev.event_type "\x7b\x7d" now fresh,
        status := .ok, broadcast := true } := by
  simp [postEvent, postEventF, noFaults, h]

theorem postEvent_session_end_def (db : Db) (ev : HookEvent) (now fresh : Nat)
    (h : ev.event_type = "session_end") :
    postEvent db ev now fresh =
      { db := insert_event (mark_session_completed db ev.session_id now) ev.session_id
          (some (ev.agent_name.getD "main")) ev.event_type "\x7b\x7d" now fresh,
        status := .ok, broadcast := true } := by
  simp [postEvent, postEventF, noFaults, h]

theorem postEvent_default_def (db : Db) (ev : HookEvent) (now fresh : Nat)
    (h1 : ev.event_type ≠ "stop") (h2 : ev.event_type ≠ "session_end") :
    postEvent db ev now fresh =
      { db := insert_event
          (upsert_agent
            (upsert_session db ev.session_id (ev.project_path.getD "")
              (ev.project_name.getD "unknown") (eventStatuses ev).1 now fresh)
            ev.session_id (ev.agent_name.getD "main") ev.parent_session_id
            (eventStatuses ev).2 now (fresh + 1))
          ev.session_id (some (ev.agent_name.getD "main")) ev.event_type
          (buildPayload ev) now (fresh + 2),
        status := .ok, broadcast := true } := by
  simp [postEvent, postEventF, noFaults, h1, h2]

/-- C2: processing a `session_end` event sets the session's status and all of
that session's agents' statuses to `completed`, unconditionally, regardless of
their prior statuses (no hypothesis constrains the prior rows), while rows of
other sessions are untouched. -/
theorem session_end_completes_session_and_agents (db : Db) (ev : HookEvent)
    (now fresh : Nat) (hty : ev.event_type = "session_end") :
    (∀ s ∈ (postEvent db ev now fresh).db.sessions,
        s.session_id = ev.session_id → s.status = "completed") ∧
    (∀ a ∈ (postEvent db ev now fresh).db.agents,
        a.session_id = ev.session_id → a.status = "completed") ∧
    (∀ s ∈ db.sessions, s.session_id = ev.session_id →
        { s with status := "completed", updated_at := now } ∈
          (postEvent db ev now fresh).db.sessions) ∧
    (∀ s ∈ db.sessions, s.session_id ≠ ev.session_id →
        s ∈ (postEvent db ev now fresh).db.sessions) ∧
    (∀ a ∈ db.agents, a.session_id = ev.session_id →
        { a with status := "completed", updated_at := now } ∈
          (postEvent db ev now fresh).db.agents) ∧
    (∀ a ∈ db.agents, a.session_id ≠ ev.session_id →
        a ∈ (postEvent db ev now fresh).db.agents) := by
  rw [postEvent_session_end_def db ev now fresh hty]
  simp only [insert_event_sessions, insert_event_agents, mark_session_completed,
    List.mem_map]
  refine ⟨?_, ?_, ?_, ?_, ?_, ?_⟩
  · rintro s ⟨t, ht, rfl⟩ hid
    by_cases h : t.session_id = ev.session_id
    · simp [h]
    · simp only [if_neg h] at hid; exact absurd hid h
  · rintro a ⟨t, ht, rfl⟩ hid
    by_cases h : t.session_id = ev.session_id
    · simp [h]
    · simp only [if_neg h] at hid; exact absurd hid h
  · intro s hs hid
    exact ⟨s, hs, by simp [hid]⟩
  · intro s hs hid
    exact ⟨s, hs, by simp [hid]⟩
  · intro a ha hid
    exact ⟨a, ha, by simp [hid]⟩
  · intro a ha hid
    exact ⟨a, ha, by simp [hid]⟩

/-- Witness for C2 at a concrete input: completing `s1` in `oneActiveDb`. -/
theorem session_end_completes_witness :
    (⟨0, "s1", "", "unknown", "completed", 1, 2⟩ : SessionRow) ∈
      (postEvent oneActiveDb evEndS1 2 20).db.sessions :=
  (session_end_completes_session_and_agents oneActiveDb evEndS1 2 20 rfl).2.2.1
    ⟨0, "s1", "", "unknown", "active", 1, 1⟩ (by simp [oneActiveDb]) rfl

/-- C8: after `terminate_session` (the `delete_session` handler), the session
and all its agents read back as `completed`, and every row belonging to any
other session — sessions, agents, events — is unchanged. -/
theorem terminate_session_completes_and_frames (db : Db) (sid : String) (now : Nat) :
    (∀ s ∈ (delete_session db sid now).db.sessions,
        s.session_id = sid → s.status = "completed") ∧
    (∀ a ∈ (delete_session db sid now).db.agents,
        a.session_id = sid → a.status = "completed") ∧
    (∀ s ∈ db.sessions, s.session_id = sid →
        { s with status := "completed", updated_at := now } ∈
          (delete_session db sid now).db.sessions) ∧
    (∀ s ∈ db.sessions, s.session_id ≠ sid → s ∈ (delete_session db sid now).db.sessions) ∧
    (∀ s ∈ (delete_session db sid now).db.sessions, s.session_id ≠ sid → s ∈ db.sessions) ∧
    (∀ a ∈ db.agents, a.session_id ≠ sid → a ∈ (delete_session db sid now).db.agents) ∧
    (∀ a ∈ (delete_session db sid now).db.agents, a.session_id ≠ sid → a ∈ db.agents) ∧
    (delete_session db sid now).db.events = db.events := by
  simp only [delete_session, mark_session_completed, List.mem_map]
  refine ⟨?_, ?_, ?_, ?_, ?_, ?_, ?_, by trivial⟩
  · rintro s ⟨t, ht, rfl⟩ hid
    by_cases h : t.session_id = sid
    · simp [h]
    · simp only [if_neg h] at hid; exact absurd hid h
  · rintro a ⟨t, ht, rfl⟩ hid
    by_cases h : t.session_id = sid
    · simp [h]
    · simp only [if_neg h] at hid; exact absurd hid h
  · intro s hs hid
    exact ⟨s, hs, by simp [hid]⟩
  · intro s hs hid
    exact ⟨s, hs, by simp [hid]⟩
  · rintro s ⟨t, ht, rfl⟩ hid
    by_cases h : t.session_id = sid
    · simp only [if_pos h] at hid; exact absurd h hid
    · simpa [if_neg h] using ht
  · intro a ha hid
    exact ⟨a, ha, by simp [hid]⟩
  · rintro a ⟨t, ht, rfl⟩ hid
    by_cases h : t.session_id = sid
    · simp only [if_pos h] at hid; exact absurd h hid
    · simpa [if_neg h] using ht

/-- Witness for C8 at a concrete input: terminating `s2` in `mixedDb` leaves
the completed `s1` row unchanged. -/
theorem terminate_session_witness :
    (⟨0, "s1", "", "unknown", "completed", 1, 2⟩ : SessionRow) ∈
      (delete_session mixedDb "s2" 9).db.sessions :=
  (terminate_session_completes_and_frames mixedDb "s2" 9).2.2.2.1
    ⟨0, "s1", "", "unknown", "completed", 1, 2⟩ (by simp [mixedDb]) (by decide)

/-- C1 counterexample: in `waitingDb` (reached from an empty store via the API)
session `s1` is `waiting_input`, yet processing a `stop` event still moves its
still-`active` agent `worker` to `idle` — the agents' statuses are not left
unchanged. -/
theorem stop_changes_agent_under_waiting_session_cex :
    (∀ s ∈ waitingDb.sessions, s.status = "waiting_input") ∧
    (∃ a ∈ waitingDb.agents, a.agent_name = "worker" ∧ a.status = "active") ∧
    (∀ s ∈ waitingDbAfterStop.sessions, s.status = "waiting_input") ∧
    (∀ a ∈ waitingDbAfterStop.agents, a.agent_name = "worker" → a.status = "idle") := by
  decide

/-- C1 (amended): a `stop` event leaves every session row that is not `active`
unchanged (in particular `waiting_input` and `needs_permission` ones), moves
the `active` session rows of the target session to `idle` and never produces a
`completed` row; agents are guarded only by their own status: `active` agents
of the target session become `idle` even when their session is `waiting_input`
or `needs_permission`, while non-`active` agents stay unchanged. -/
theorem stop_event_transitions (db : Db) (ev : HookEvent) (now fresh : Nat)
    (hty : ev.event_type = "stop") :
    (∀ s ∈ db.sessions, s.status ≠ "active" → s ∈ (postEvent db ev now fresh).db.sessions) ∧
    (∀ s ∈ db.sessions, s.session_id ≠ ev.session_id →
        s ∈ (postEvent db ev now fresh).db.sessions) ∧
    (∀ s ∈ db.sessions, s.session_id = ev.session_id → s.status = "active" →
        { s with status := "idle", updated_at := now } ∈
          (postEvent db ev now fresh).db.sessions) ∧
    (∀ s ∈ (postEvent db ev now fresh).db.sessions, s.status = "completed" →
        s ∈ db.sessions) ∧
    (∀ a ∈ db.agents, a.status ≠ "active" → a ∈ (postEvent db ev now fresh).db.agents) ∧
    (∀ a ∈ db.agents, a.session_id = ev.session_id → a.status = "active" →
        { a with status := "idle", updated_at := now } ∈
          (postEvent db ev now fresh).db.agents) := by
  rw [postEvent_stop_def db ev now fresh hty]
  simp only [insert_event_sessions, insert_event_agents, mark_active_session_idle,
    List.mem_map]
  refine ⟨?_, ?_, ?_, ?_, ?_, ?_⟩
  · intro s hs hst
    refine ⟨s, hs, ?_⟩
    rw [if_neg]; rintro ⟨-, h2⟩; exact hst h2
  · intro s hs hid
    refine ⟨s, hs, ?_⟩
    rw [if_neg]; rintro ⟨h1, -⟩; exact hid h1
  · intro s hs hid hst
    exact ⟨s, hs, by rw [if_pos ⟨hid, hst⟩]⟩
  · rintro s ⟨t, ht, rfl⟩ hc
    by_cases h : t.session_id = ev.session_id ∧ t.status = "active"
    · rw [if_pos h] at hc; simp at hc
    · rwa [if_neg h]
  · intro a ha hst
    refine ⟨a, ha, ?_⟩
    rw [if_neg]; rintro ⟨-, h2⟩; exact hst h2
  · intro a ha hid hst
    exact ⟨a, ha, by rw [if_pos ⟨hid, hst⟩]⟩

/-- Witness for C1's amended theorem at a concrete input: the `stop` event on
`oneActiveDb` moves its `active` agent to `idle`. -/
theorem stop_event_transitions_witness :
    (⟨1, "s1", "main", none, "idle", 1, 3⟩ : AgentRow) ∈
      (postEvent oneActiveDb evStopS1 3 30).db.agents :=
  (stop_event_transitions oneActiveDb evStopS1 3 30 rfl).2.2.2.2.2
    ⟨1, "s1", "main", none, "active", 1, 1⟩ (by simp [oneActiveDb]) rfl rfl

/-! Helper lemmas about the two upserts. -/

theorem upsert_session_mem_of_mem (db : Db) (sid pp pn st : String) (now fresh : Nat)
    (s : SessionRow) (hs : s ∈ db.sessions) :
    ∃ s' ∈ (upsert_session db sid pp pn st now fresh).sessions,
      s'.session_id = s.session_id := by
  unfold upsert_session
  split
  · refine ⟨_, List.mem_map_of_mem _ hs, ?_⟩
    by_cases h : s.session_id = sid <;> simp [h]
  · exact ⟨s, List.mem_append_left _ hs, rfl⟩

theorem upsert_session_exists_target (db : Db) (sid pp pn st : String) (now fresh : Nat) :
    ∃ s' ∈ (upsert_session db sid pp pn st now fresh).sessions,
      s'.session_id = sid ∧ s'.status = st := by
  unfold upsert_session
  split
  · rename_i h
    simp only [List.any_eq_true, decide_eq_true_eq] at h
    obtain ⟨t, ht, hid⟩ := h
    exact ⟨_, List.mem_map_of_mem _ ht, by simp [hid]⟩
  · exact ⟨_, List.mem_append_right _ (List.mem_singleton_self _), rfl, rfl⟩

theorem upsert_session_status_all (db : Db) (sid pp pn st : String) (now fresh : Nat) :
    ∀ s' ∈ (upsert_session db sid pp pn st now fresh).sessions,
      s'.session_id = sid → s'.status = st := by
  unfold upsert_session
  split
  · rintro s' hs' hid
    simp only [List.mem_map] at hs'
    obtain ⟨t, ht, rfl⟩ := hs'
    by_cases h : t.session_id = sid
    · simp [h]
    · rw [if_neg h] at hid ⊢; exact absurd hid h
  · rename_i h
    intro s' hs' hid
    rcases List.mem_append.1 hs' with h1 | h1
    · exact absurd (by simpa only [List.any_eq_true, decide_eq_true_eq] using ⟨s', h1, hid⟩) h
    · rw [List.mem_singleton.1 h1]

theorem upsert_agent_exists_target (db : Db) (sid an : String) (p : Option String)
    (st : String) (now fresh : Nat) :
    ∃ a' ∈ (upsert_agent db sid an p st now fresh).agents,
      a'.session_id = sid ∧ a'.agent_name = an ∧ a'.status = st := by
  unfold upsert_agent
  split
  · rename_i h
    simp only [List.any_eq_true, decide_eq_true_eq] at h
    obtain ⟨t, ht, hid, hn⟩ := h
    exact ⟨_, List.mem_map_of_mem _ ht, by simp [hid, hn]⟩
  · exact ⟨_, List.mem_append_right _ (List.mem_singleton_self _), rfl, rfl, rfl⟩

theorem upsert_agent_status_all (db : Db) (sid an : String) (p : Option String)
    (st : String) (now fresh : Nat) :
    ∀ a' ∈ (upsert_agent db sid an p st now fresh).agents,
      a'.session_id = sid → a'.agent_name = an → a'.status = st := by
  unfold upsert_agent
  split
  · rintro a' ha' hid hn
    simp only [List.mem_map] at ha'
    obtain ⟨t, ht, rfl⟩ := ha'
    by_cases h : t.session_id = sid ∧ t.agent_name = an
    · simp [h]
    · rw [if_neg h] at hid hn ⊢; exact absurd ⟨hid, hn⟩ h
  · rename_i h
    intro a' ha' hid hn
    rcases List.mem_append.1 ha' with h1 | h1
    · exact absurd (by simpa only [List.any_eq_true, decide_eq_true_eq] using ⟨a', h1, hid, hn⟩) h
    · rw [List.mem_singleton.1 h1]

/-- C3 counterexample: in `completedDb` (reached from an empty store via the
API: a `tool_use` then a `session_end`) session `s1` is `completed`, yet a
subsequent default-path `tool_use` event moves its status back to `active` —
`completed` is not terminal under the catch-all upsert. -/
theorem completed_session_resurrected_cex :
    (∀ s ∈ completedDb.sessions, s.session_id = "s1" → s.status = "completed") ∧
    (∃ s ∈ (postEvent completedDb evToolWorker 3 30).db.sessions,
        s.session_id = "s1" ∧ s.status = "active") := by
  decide

/-- C3 (amended): no hook event of any type deletes a session row (deletion
only happens in the sweeper's purge or the explicit reset), and `completed` is
preserved by `stop` and `session_end` events; any other event type, however,
unconditionally upserts the session and can move a `completed` session back to
a non-`completed` status. -/
theorem completed_preserved_by_stop_and_session_end (db : Db) (ev : HookEvent)
    (now fresh : Nat) (sid : String) :
    (∀ s ∈ db.sessions, ∃ s' ∈ (postEvent db ev now fresh).db.sessions,
        s'.session_id = s.session_id) ∧
    ((ev.event_type = "stop" ∨ ev.event_type = "session_end") →
      (∀ s ∈ db.sessions, s.session_id = sid → s.status = "completed") →
      ∀ s' ∈ (postEvent db ev now fresh).db.sessions,
        s'.session_id = sid → s'.status = "completed") := by
  constructor
  · intro s hs
    by_cases h1 : ev.event_type = "stop"
    · rw [postEvent_stop_def db ev now fresh h1]
      simp only [insert_event_sessions, mark_active_session_idle]
      refine ⟨_, List.mem_map_of_mem _ hs, ?_⟩
      by_cases h : s.session_id = ev.session_id ∧ s.status = "active" <;> simp [h]
    · by_cases h2 : ev.event_type = "session_end"
      · rw [postEvent_session_end_def db ev now fresh h2]
        simp only [insert_event_sessions, mark_session_completed]
        refine ⟨_, List.mem_map_of_mem _ hs, ?_⟩
        by_cases h : s.session_id = ev.session_id <;> simp [h]
      · rw [postEvent_default_def db ev now fresh h1 h2]
        simp only [insert_event_sessions, upsert_agent_sessions]
        exact upsert_session_mem_of_mem db ev.session_id _ _ _ now fresh s hs
  · rintro (h1 | h2) hc s' hs' hid
    · rw [postEvent_stop_def db ev now fresh h1] at hs'
      simp only [insert_event_sessions, mark_active_session_idle, List.mem_map] at hs'
      obtain ⟨t, ht, rfl⟩ := hs'
      by_cases h : t.session_id = ev.session_id ∧ t.status = "active"
      · rw [if_pos h] at hid
        exact absurd (hc t ht hid) (by rw [h.2]; decide)
      · rw [if_neg h] at hid ⊢
        exact hc t ht hid
    · rw [postEvent_session_end_def db ev now fresh h2] at hs'
      simp only [insert_event_sessions, mark_session_completed, List.mem_map] at hs'
      obtain ⟨t, ht, rfl⟩ := hs'
      by_cases h : t.session_id = ev.session_id
      · simp [h]
      · rw [if_neg h] at hid ⊢
        exact hc t ht hid

/-- Witness for C3's amended theorem at a concrete input: the `stop` event on
`completedDb` leaves the `s1` row completed. -/
theorem completed_preserved_witness :
    (⟨10, "s1", "", "unknown", "completed", 1, 2⟩ : SessionRow).status = "completed" :=
  (completed_preserved_by_stop_and_session_end completedDb evStopS1 3 30 "s1").2
    (Or.inl rfl) (by decide) ⟨10, "s1", "", "unknown", "completed", 1, 2⟩
    (by decide) (by decide)

@[simp] theorem delete_expired_agents_sessions (db : Db) (now : Nat) :
    (delete_expired_agents db now).sessions = db.sessions := rfl

@[simp] theorem delete_expired_agents_events (db : Db) (now : Nat) :
    (delete_expired_agents db now).events = db.events := rfl

@[simp] theorem delete_expired_events_sessions (db : Db) (now : Nat) :
    (delete_expired_events db now).sessions = db.sessions := rfl

@[simp] theorem delete_expired_events_agents (db : Db) (now : Nat) :
    (delete_expired_events db now).agents = db.agents := rfl

/-- C4: the purge keeps a session row exactly when it is not both `completed`
and past the 60-second TTL; it keeps an agent or event row exactly when its
session is not an expired completed one; and the session rows are deleted only
in the final step, after both child tables — equivalently, the pipeline can be
read in the order events, then agents, then sessions. -/
theorem cleanup_old_completed_spec (db : Db) (now : Nat) :
    (∀ s, s ∈ (cleanup_old_completed db now).sessions ↔
        s ∈ db.sessions ∧ ¬ (s.status = "completed" ∧ s.updated_at + 60 ≤ now)) ∧
    (∀ a, a ∈ (cleanup_old_completed db now).agents ↔
        a ∈ db.agents ∧ ¬ expiredCompleted db.sessions now a.session_id) ∧
    (∀ e, e ∈ (cleanup_old_completed db now).events ↔
        e ∈ db.events ∧ ¬ expiredCompleted db.sessions now e.session_id) ∧
    (delete_expired_events (delete_expired_agents db now) now).sessions = db.sessions ∧
    cleanup_old_completed db now =
      delete_expired_sessions (delete_expired_agents (delete_expired_events db now) now) now := by
  refine ⟨?_, ?_, ?_, rfl, rfl⟩
  · intro s
    simp only [cleanup_old_completed, delete_expired_sessions,
      delete_expired_events_sessions, delete_expired_agents_sessions,
      List.mem_filter, decide_eq_true_eq]
  · intro a
    simp [cleanup_old_completed, delete_expired_sessions, delete_expired_events,
      delete_expired_agents, List.mem_filter]
  · intro e
    simp [cleanup_old_completed, delete_expired_sessions, delete_expired_events,
      delete_expired_agents, List.mem_filter]

/-- Witness for C4 at a concrete input: purging `mixedDb` at time 100 keeps
the young `active` session `s2`. -/
theorem cleanup_old_completed_witness :
    (⟨1, "s2", "", "unknown", "active", 5, 5⟩ : SessionRow) ∈
      (cleanup_old_completed mixedDb 100).sessions :=
  ((cleanup_old_completed_spec mixedDb 100).1 _).mpr ⟨by decide, by decide⟩

/-- C5: the active-sessions read returns exactly the non-`completed` session
rows (a permutation of that filter of the table), ordered by session creation
time descending; each returned session's status is not `completed` and it
carries exactly the agent rows of its session identifier (a permutation of
that filter), ordered by agent creation time ascending. -/
theorem get_active_sessions_spec (db : Db) :
    ((get_active_sessions db).map SessionWithAgents.row).Perm
      (db.sessions.filter (fun s => s.status ≠ "completed")) ∧
    (get_active_sessions db).Pairwise (fun u v => v.created_at ≤ u.created_at) ∧
    (∀ v ∈ get_active_sessions db,
      v.status ≠ "completed" ∧
      v.agents.Perm (db.agents.filter (fun a => a.session_id = v.session_id)) ∧
      v.agents.Pairwise (fun a b => a.created_at ≤ b.created_at)) := by
  have htrS : ∀ a b c : SessionRow, decide (b.created_at ≤ a.created_at) = true →
      decide (c.created_at ≤ b.created_at) = true →
      decide (c.created_at ≤ a.created_at) = true := by
    intro a b c h1 h2
    simp only [decide_eq_true_eq] at h1 h2 ⊢
    omega
  have htoS : ∀ a b : SessionRow,
      (decide (b.created_at ≤ a.created_at) || decide (a.created_at ≤ b.created_at)) = true := by
    intro a b
    rcases Nat.le_total b.created_at a.created_at with h | h <;> simp [h]
  have htrA : ∀ a b c : AgentRow, decide (a.created_at ≤ b.created_at) = true →
      decide (b.created_at ≤ c.created_at) = true →
      decide (a.created_at ≤ c.created_at) = true := by
    intro a b c h1 h2
    simp only [decide_eq_true_eq] at h1 h2 ⊢
    omega
  have htoA : ∀ a b : AgentRow,
      (decide (a.created_at ≤ b.created_at) || decide (b.created_at ≤ a.created_at)) = true := by
    intro a b
    rcases Nat.le_total a.created_at b.created_at with h | h <;> simp [h]
  refine ⟨?_, ?_, ?_⟩
  · simp only [get_active_sessions]
    rw [List.map_map]
    have hid : (SessionWithAgents.row ∘ sessionView db) = id := by
      funext s; rfl
    rw [hid, List.map_id]
    exact List.mergeSort_perm _ _
  · exact List.Pairwise.map (sessionView db)
      (fun a b h => of_decide_eq_true h)
      (List.sorted_mergeSort htrS htoS _)
  · intro v hv
    simp only [get_active_sessions, List.mem_map, List.mem_mergeSort, List.mem_filter] at hv
    obtain ⟨s, ⟨hs, hst⟩, rfl⟩ := hv
    refine ⟨of_decide_eq_true hst, List.mergeSort_perm _ _, ?_⟩
    exact (List.sorted_mergeSort htrA htoA _).imp (fun h => of_decide_eq_true h)

/-- Witness for C5 at a concrete input: the one view returned over `mixedDb`
is not completed. -/
theorem get_active_sessions_witness :
    (sessionView mixedDb ⟨1, "s2", "", "unknown", "active", 5, 5⟩).status ≠ "completed" :=
  ((get_active_sessions_spec mixedDb).2.2 _
    (by simp [get_active_sessions, mixedDb])).1

/-- C6: on the default (catch-all) path a failing Session or Agent upsert
surfaces a server fault, writes no event and fires no broadcast (a
Session-upsert failure leaves the whole store untouched); a failing Event-log
insert, or a failing status write on the `stop` or `session_end` path, is
swallowed — the caller still receives success and a broadcast still fires. -/
theorem post_event_error_policy (db : Db) (ev : HookEvent) (now fresh : Nat) :
    (ev.event_type ≠ "stop" → ev.event_type ≠ "session_end" →
      postEventF { sessionUpsertFails := true } db ev now fresh =
        { db := db, status := .internalServerError, broadcast := false }) ∧
    (ev.event_type ≠ "stop" → ev.event_type ≠ "session_end" →
      (postEventF { agentUpsertFails := true } db ev now fresh).status =
          .internalServerError ∧
      (postEventF { agentUpsertFails := true } db ev now fresh).broadcast = false ∧
      (postEventF { agentUpsertFails := true } db ev now fresh).db.events = db.events) ∧
    ((postEventF { insertEventFails := true } db ev now fresh).status = .ok ∧
     (postEventF { insertEventFails := true } db ev now fresh).broadcast = true) ∧
    (ev.event_type = "stop" →
      (postEventF { stopWriteFails := true } db ev now fresh).status = .ok ∧
      (postEventF { stopWriteFails := true } db ev now fresh).broadcast = true) ∧
    (ev.event_type = "session_end" →
      (postEventF { sessionEndWriteFails := true } db ev now fresh).status = .ok ∧
      (postEventF { sessionEndWriteFails := true } db ev now fresh).broadcast = true) := by
  refine ⟨?_, ?_, ?_, ?_, ?_⟩
  · intro h1 h2
    simp [postEventF, h1, h2]
  · intro h1 h2
    simp [postEventF, h1, h2]
  · by_cases h1 : ev.event_type = "stop"
    · simp [postEventF, h1]
    · by_cases h2 : ev.event_type = "session_end" <;> simp [postEventF, h1, h2]
  · intro h1
    simp [postEventF, h1]
  · intro h2
    have h1 : ev.event_type ≠ "stop" := by rw [h2]; decide
    simp [postEventF, h1, h2]

/-- Witness for C6 at a concrete input: a failing session upsert on a
`tool_use` event is a server fault that drops the event and the broadcast. -/
theorem post_event_error_policy_witness :
    postEventF { sessionUpsertFails := true } oneActiveDb evToolWorker 1 10 =
      { db := oneActiveDb, status := .internalServerError, broadcast := false } :=
  (post_event_error_policy oneActiveDb evToolWorker 1 10).1 (by decide) (by decide)

/-- C7 counterexample: a `stop` or `session_end` event that is the first to
reference a session identifier creates no Session row and no Agent row — only
an Event log entry. -/
theorem first_stop_event_creates_no_rows_cex :
    (postEvent Db.empty evStopS1 1 10).db.sessions = [] ∧
    (postEvent Db.empty evStopS1 1 10).db.agents = [] ∧
    (postEvent Db.empty evStopS1 1 10).db.events ≠ [] ∧
    (postEvent Db.empty evEndS1 1 10).db.sessions = [] ∧
    (postEvent Db.empty evEndS1 1 10).db.agents = [] := by
  decide

/-- C7 (amended): for every event type other than `stop` and `session_end`,
processing an event leaves a Session row and an Agent row in place for the
referenced identifier, creating them when first seen; `stop` and `session_end`
events create no Session or Agent row. -/
theorem default_event_creates_rows (db : Db) (ev : HookEvent) (now fresh : Nat)
    (h1 : ev.event_type ≠ "stop") (h2 : ev.event_type ≠ "session_end") :
    (∃ s ∈ (postEvent db ev now fresh).db.sessions, s.session_id = ev.session_id) ∧
    (∃ a ∈ (postEvent db ev now fresh).db.agents,
        a.session_id = ev.session_id ∧ a.agent_name = ev.agent_name.getD "main") := by
  rw [postEvent_default_def db ev now fresh h1 h2]
  simp only [insert_event_sessions, insert_event_agents, upsert_agent_sessions]
  constructor
  · obtain ⟨s, hs, hid, -⟩ := upsert_session_exists_target db ev.session_id
      (ev.project_path.getD "") (ev.project_name.getD "unknown") (eventStatuses ev).1 now fresh
    exact ⟨s, hs, hid⟩
  · obtain ⟨a, ha, hid, hn, -⟩ := upsert_agent_exists_target _ ev.session_id
      (ev.agent_name.getD "main") ev.parent_session_id (eventStatuses ev).2 now (fresh + 1)
    exact ⟨a, ha, hid, hn⟩

/-- Witness for C7's amended theorem: the first `tool_use` on an empty store
leaves the sessions table non-empty. -/
theorem default_event_creates_rows_witness :
    (postEvent Db.empty evToolWorker 1 10).db.sessions ≠ [] := by
  obtain ⟨s, hs, -⟩ := (default_event_creates_rows Db.empty evToolWorker 1 10
    (by decide) (by decide)).1
  exact List.ne_nil_of_mem hs

theorem countAgents_congr (db db' : Db) (h : db.agents = db'.agents) (sid an : String) :
    countAgents db sid an = countAgents db' sid an := by
  unfold countAgents
  rw [h]

theorem countAgents_upsert_agent (db : Db) (sid an : String) (p : Option String)
    (st : String) (now fresh : Nat) (h : countAgents db sid an ≤ 1) :
    countAgents (upsert_agent db sid an p st now fresh) sid an = 1 := by
  unfold countAgents at h ⊢
  rw [← List.countP_eq_length_filter] at h ⊢
  unfold upsert_agent
  split
  · rename_i hany
    simp only
    rw [List.countP_map]
    have hkey : ((fun a : AgentRow => decide (a.session_id = sid ∧ a.agent_name = an)) ∘
        (fun a : AgentRow =>
          if a.session_id = sid ∧ a.agent_name = an then
            { a with parent_session_id := p, status := st, updated_at := now }
          else a)) =
        fun a : AgentRow => decide (a.session_id = sid ∧ a.agent_name = an) := by
      funext a
      simp only [Function.comp_apply]
      by_cases hk : a.session_id = sid ∧ a.agent_name = an
      · rw [if_pos hk]
      · rw [if_neg hk]
    rw [hkey]
    have hpos : 0 < db.agents.countP
        (fun a : AgentRow => decide (a.session_id = sid ∧ a.agent_name = an)) := by
      rw [List.countP_pos_iff]
      simpa only [List.any_eq_true] using hany
    omega
  · rename_i hany
    simp only [List.countP_append]
    have h0 : db.agents.countP
        (fun a : AgentRow => decide (a.session_id = sid ∧ a.agent_name = an)) = 0 := by
      rw [List.countP_eq_zero]
      intro a ha hk
      exact hany (List.any_eq_true.mpr ⟨a, ha, hk⟩)
    rw [h0]
    simp

/-- C9: submitting the same default-path `tool_use` event (same session_id and
agent_name) twice in a row leaves exactly one Agent row for that
(session identifier, agent name) pair — given the uniqueness invariant the
store starts with — and that row's status is `active` after each
submission. -/
theorem repeated_default_event_single_agent_row (db : Db) (ev : HookEvent)
    (now1 fresh1 now2 fresh2 : Nat)
    (hty : ev.event_type = "tool_use")
    (hinv : countAgents db ev.session_id (ev.agent_name.getD "main") ≤ 1) :
    countAgents (postEvent db ev now1 fresh1).db ev.session_id
        (ev.agent_name.getD "main") = 1 ∧
    (∀ a ∈ (postEvent db ev now1 fresh1).db.agents,
        a.session_id = ev.session_id → a.agent_name = ev.agent_name.getD "main" →
        a.status = "active") ∧
    countAgents (postEvent (postEvent db ev now1 fresh1).db ev now2 fresh2).db
        ev.session_id (ev.agent_name.getD "main") = 1 ∧
    (∀ a ∈ (postEvent (postEvent db ev now1 fresh1).db ev now2 fresh2).db.agents,
        a.session_id = ev.session_id → a.agent_name = ev.agent_name.getD "main" →
        a.status = "active") := by
  have h1 : ev.event_type ≠ "stop" := by simp [hty]
  have h2 : ev.event_type ≠ "session_end" := by simp [hty]
  have hest : eventStatuses ev = ("active", "active") := by
    simp [eventStatuses, hty]
  have step : ∀ (d : Db) (now fresh : Nat),
      countAgents d ev.session_id (ev.agent_name.getD "main") ≤ 1 →
      countAgents (postEvent d ev now fresh).db ev.session_id
          (ev.agent_name.getD "main") = 1 ∧
      (∀ a ∈ (postEvent d ev now fresh).db.agents,
          a.session_id = ev.session_id → a.agent_name = ev.agent_name.getD "main" →
          a.status = "active") := by
    intro d now fresh hd
    rw [postEvent_default_def d ev now fresh h1 h2]
    have hcnt : countAgents (upsert_session d ev.session_id (ev.project_path.getD "")
        (ev.project_name.getD "unknown") (eventStatuses ev).1 now fresh)
        ev.session_id (ev.agent_name.getD "main") ≤ 1 := by
      rw [countAgents_congr _ d (upsert_session_agents d _ _ _ _ now fresh)]
      exact hd
    constructor
    · exact countAgents_upsert_agent _ ev.session_id (ev.agent_name.getD "main")
        ev.parent_session_id (eventStatuses ev).2 now (fresh + 1) hcnt
    · intro a ha hid hn
      have hst := upsert_agent_status_all (upsert_session d ev.session_id
        (ev.project_path.getD "") (ev.project_name.getD "unknown")
        (eventStatuses ev).1 now fresh) ev.session_id (ev.agent_name.getD "main")
        ev.parent_session_id (eventStatuses ev).2 now (fresh + 1) a ha hid hn
      rw [hst, hest]
  obtain ⟨hc1, hs1⟩ := step db now1 fresh1 hinv
  obtain ⟨hc2, hs2⟩ := step (postEvent db ev now1 fresh1).db now2 fresh2 (Nat.le_of_eq hc1)
  exact ⟨hc1, hs1, hc2, hs2⟩

/-- Witness for C9 at a concrete input: two `tool_use` events from an empty
store leave exactly one (s1, worker) agent row. -/
theorem repeated_default_event_witness :
    countAgents (postEvent (postEvent Db.empty evToolWorker 1 10).db evToolWorker 2 20).db
      "s1" "worker" = 1 :=
  (repeated_default_event_single_agent_row Db.empty evToolWorker 1 10 2 20 rfl
    (by decide)).2.2.1

/-- C10: a `notification` event whose needs_input flag is absent or false does
not take the `notification` row of the transition table; it falls into the
catch-all branch, upserting both the session and the agent with status
`active`, not `waiting_input`. -/
theorem notification_without_needs_input_is_active (db : Db) (ev : HookEvent)
    (now fresh : Nat) (hty : ev.event_type = "notification")
    (hni : ev.needs_input.getD false = false) :
    (∃ s ∈ (postEvent db ev now fresh).db.sessions,
        s.session_id = ev.session_id ∧ s.status = "active") ∧
    (∀ s ∈ (postEvent db ev now fresh).db.sessions,
        s.session_id = ev.session_id → s.status = "active") ∧
    (∃ a ∈ (postEvent db ev now fresh).db.agents,
        a.session_id = ev.session_id ∧ a.agent_name = ev.agent_name.getD "main" ∧
        a.status = "active") ∧
    (∀ a ∈ (postEvent db ev now fresh).db.agents,
        a.session_id = ev.session_id → a.agent_name = ev.agent_name.getD "main" →
        a.status = "active") := by
  have h1 : ev.event_type ≠ "stop" := by simp [hty]
  have h2 : ev.event_type ≠ "session_end" := by simp [hty]
  have hest : eventStatuses ev = ("active", "active") := by
    simp [eventStatuses, hty, hni]
  rw [postEvent_default_def db ev now fresh h1 h2, hest]
  simp only [insert_event_sessions, insert_event_agents, upsert_agent_sessions]
  refine ⟨?_, ?_, ?_, ?_⟩
  · exact upsert_session_exists_target db ev.session_id (ev.project_path.getD "")
      (ev.project_name.getD "unknown") ("active", "active").1 now fresh
  · exact upsert_session_status_all db ev.session_id (ev.project_path.getD "")
      (ev.project_name.getD "unknown") ("active", "active").1 now fresh
  · exact upsert_agent_exists_target _ ev.session_id (ev.agent_name.getD "main")
      ev.parent_session_id ("active", "active").2 now (fresh + 1)
  · exact upsert_agent_status_all _ ev.session_id (ev.agent_name.getD "main")
      ev.parent_session_id ("active", "active").2 now (fresh + 1)

/-- Witness for C10 at a concrete input: a needs_input-less notification on an
empty store creates the `s1` session row with status `active`. -/
theorem notification_without_needs_input_witness :
    (⟨10, "s1", "", "unknown", "active", 1, 1⟩ : SessionRow).status = "active" :=
  (notification_without_needs_input_is_active Db.empty evNotifyNoInput 1 10 rfl rfl).2.1
    ⟨10, "s1", "", "unknown", "active", 1, 1⟩ (by decide) rfl

end SessionMonitor
